import Mathlib

/-!
Shallow embedding of the two transient-simulation scripts of this repository
(a series RL circuit with a resistance step at t = 0.05 s, and a two-state
RLC circuit with a load step at t = 0.005 s).  Machine floats are modelled
as exact rationals; numpy vectors are modelled as functions from the index.
Python scalar division raises ZeroDivisionError on a zero denominator, so a
second, Except-valued embedding of each script tracks where such an
exception would surface (before the time loop or at a given loop step).
-/

namespace TransientSim

/-- Exceptions the Python runtime can raise in these scripts: scalar
division by zero, numpy rejecting a negative array size, and a singular
matrix in numpy.linalg.solve. -/
inductive PyExc
  | zeroDivisionError
  | valueError
  | linAlgError
deriving DecidableEq

/-- Where a run fails: before the time loop starts, or at a loop step. -/
inductive SimFailure
  | beforeLoop (e : PyExc)
  | atStep (n : ℕ) (e : PyExc)
deriving DecidableEq

/-- Python int() applied to a rational: truncation toward zero. -/
def pyint (q : ℚ) : ℤ := Int.tdiv q.num q.den

/-- numpy.linspace(0, stop, num) sampled at index i:
num equally spaced points from 0 to stop inclusive. -/
def linspace (stop : ℚ) (num : ℕ) (i : ℕ) : ℚ :=
  if num ≤ 1 then 0 else i * stop / ((num : ℚ) - 1)

namespace RL

/-- Inductance L = 0.1 H of the RL script. -/
def L : ℚ := 1 / 10

/-- Source voltage V_fonte = 220.0 V of the RL script. -/
def V_fonte : ℚ := 220

/-- Resistance schedule of the RL script: 10.0 ohm before t = 0.05 s,
1.0 ohm from t = 0.05 s on. -/
def pegar_resistencia (time : ℚ) : ℚ :=
  if time < 1 / 20 then 10 else 1

/-- Simulation horizon t_max = 0.1 s. -/
def t_max : ℚ := 1 / 10

/-- Time step dt = 1e-5 s. -/
def dt : ℚ := 1 / 100000

/-- n_steps = int(t_max / dt). -/
def n_steps : ℕ := (pyint (t_max / dt)).toNat

/-- Time grid t = np.linspace(0, t_max, n_steps). -/
def t (i : ℕ) : ℚ := linspace t_max n_steps i

/-- Left-hand trapezoidal coefficient lado_esquerdo = 1 - (dt/2)*A with
A = -R/L, written over general dt, L, R as in the source expression. -/
def lado_esquerdo (dtv Lv Rn : ℚ) : ℚ := 1 - (dtv / 2) * (-Rn / Lv)

/-- Right-hand side lado_direito = (1 + (dt/2)*A)*x + dt*B*u with
A = -R/L and B = 1/L. -/
def lado_direito (dtv Lv Rn u xv : ℚ) : ℚ :=
  (1 + (dtv / 2) * (-Rn / Lv)) * xv + dtv * (1 / Lv) * u

/-- State sequence of the RL loop: x(0) = 0 and each step divides
lado_direito by lado_esquerdo, both built from the resistance at t[n].
The schedule and the source voltage are explicit arguments so that the
constant-resistance and zero-source scenarios instantiate the same loop. -/
def x (Rs : ℚ → ℚ) (u : ℚ) : ℕ → ℚ
  | 0 => 0
  | n + 1 => lado_direito dt L (Rs (t n)) u (x Rs u n) / lado_esquerdo dt L (Rs (t n))

/-- Stored inductor-current series i_L: index 0 keeps its zero
initialization (equal to the initial state), index n+1 receives the
solved state. -/
def i_L (Rs : ℚ → ℚ) (u : ℚ) (i : ℕ) : ℚ := x Rs u i

/-- Stored resistor-voltage series v_R: index 0 keeps its zero
initialization; index n+1 receives pegar_resistencia(t[n+1]) * i_L[n+1]. -/
def v_R (Rs : ℚ → ℚ) (u : ℚ) (i : ℕ) : ℚ :=
  if i = 0 then 0 else Rs (t i) * x Rs u i

/-- Stored inductor-voltage series v_L: index 0 keeps its zero
initialization; index n+1 receives V_fonte - v_R[n+1]. -/
def v_L (Rs : ℚ → ℚ) (u : ℚ) (i : ℕ) : ℚ :=
  if i = 0 then 0 else u - v_R Rs u i

/-- One RL loop body with the division sites made explicit: Python raises
ZeroDivisionError at A = -R_n/L when L = 0 and at the final division when
lado_esquerdo = 0. -/
def step_exc (Lv dtv u tn xv : ℚ) : Except PyExc ℚ :=
  if Lv = 0 then .error .zeroDivisionError
  else
    if lado_esquerdo dtv Lv (pegar_resistencia tn) = 0 then .error .zeroDivisionError
    else .ok (lado_direito dtv Lv (pegar_resistencia tn) u xv / lado_esquerdo dtv Lv (pegar_resistencia tn))

/-- The RL time loop with failure tracking: runs rem further iterations
starting at loop index n, tagging any exception with its step index. -/
def loop_exc (Lv dtv u : ℚ) (grid : ℕ → ℚ) : ℕ → ℕ → ℚ → Except SimFailure ℚ
  | _, 0, xv => .ok xv
  | n, rem + 1, xv =>
    match step_exc Lv dtv u (grid n) xv with
    | .error e => .error (.atStep n e)
    | .ok xv' => loop_exc Lv dtv u grid (n + 1) rem xv'

/-- The whole RL script over configurable L and dt: n_steps = int(t_max/dt)
raises ZeroDivisionError when dt = 0; np.linspace raises ValueError when
n_steps is negative; then the loop runs n_steps - 1 iterations from the
zero initial state. -/
def run (Lv dtv : ℚ) : Except SimFailure ℚ :=
  if dtv = 0 then .error (.beforeLoop .zeroDivisionError)
  else if pyint (t_max / dtv) < 0 then .error (.beforeLoop .valueError)
  else loop_exc Lv dtv V_fonte (linspace t_max (pyint (t_max / dtv)).toNat) 0
    ((pyint (t_max / dtv)).toNat - 1) 0

end RL

/-- A 2x2 matrix of rationals, row-major: entries a b / c d. -/
structure Mat2 where
  a : ℚ
  b : ℚ
  c : ℚ
  d : ℚ

/-- Determinant of a 2x2 matrix. -/
def det2 (m : Mat2) : ℚ := m.a * m.d - m.b * m.c

/-- Matrix-vector product of a 2x2 matrix with a pair. -/
def mulVec (m : Mat2) (v : ℚ × ℚ) : ℚ × ℚ :=
  (m.a * v.1 + m.b * v.2, m.c * v.1 + m.d * v.2)

/-- np.linalg.solve for a 2x2 system, by the Cramer formula; the solve of
a singular matrix is handled separately in the Except-valued embedding. -/
def solve2 (m : Mat2) (r : ℚ × ℚ) : ℚ × ℚ :=
  ((m.d * r.1 - m.b * r.2) / det2 m, (m.a * r.2 - m.c * r.1) / det2 m)

namespace RLC

/-- Line inductance L = 0.01 H of the RLC script. -/
def L : ℚ := 1 / 100

/-- Line capacitance C = 1e-6 F of the RLC script. -/
def C : ℚ := 1 / 1000000

/-- Initial load resistance R_load_initial = 50 ohm. -/
def R_load_initial : ℚ := 50

/-- Source voltage V_source = 100 V. -/
def V_source : ℚ := 100

/-- Simulation horizon t_max = 0.01 s. -/
def t_max : ℚ := 1 / 100

/-- Time step dt = 1e-6 s. -/
def dt : ℚ := 1 / 1000000

/-- n_steps = int(t_max / dt). -/
def n_steps : ℕ := (pyint (t_max / dt)).toNat

/-- Time grid t = np.linspace(0, t_max, n_steps). -/
def t (i : ℕ) : ℚ := linspace t_max n_steps i

/-- Load-resistance schedule: R_load_initial before t = 0.005 s,
R_load_initial / 2 from t = 0.005 s on. -/
def load_resistance (time : ℚ) : ℚ :=
  if time < 1 / 200 then R_load_initial else R_load_initial / 2

/-- State matrix A_load for the current load resistance:
rows (0, -1/L) and (1/C, -1/(R_load*C)). -/
def A_load (Rn : ℚ) : Mat2 := ⟨0, -1 / L, 1 / C, -1 / (Rn * C)⟩

/-- Left-hand operator I - (dt/2) * A_load. -/
def left_side (Rn : ℚ) : Mat2 :=
  ⟨1 - (dt / 2) * (A_load Rn).a, -((dt / 2) * (A_load Rn).b),
   -((dt / 2) * (A_load Rn).c), 1 - (dt / 2) * (A_load Rn).d⟩

/-- Right-hand matrix I + (dt/2) * A_load. -/
def right_side_matrix (Rn : ℚ) : Mat2 :=
  ⟨1 + (dt / 2) * (A_load Rn).a, (dt / 2) * (A_load Rn).b,
   (dt / 2) * (A_load Rn).c, 1 + (dt / 2) * (A_load Rn).d⟩

/-- Input vector u_vec = (V_source / L, 0), over a configurable source. -/
def u_vec (Vs : ℚ) : ℚ × ℚ := (Vs / L, 0)

/-- Right-hand side right_side_vector = (I + (dt/2)*A_load) @ x + dt * u_vec. -/
def right_side_vector (Rn Vs : ℚ) (xv : ℚ × ℚ) : ℚ × ℚ :=
  ((mulVec (right_side_matrix Rn) xv).1 + dt * (u_vec Vs).1,
   (mulVec (right_side_matrix Rn) xv).2 + dt * (u_vec Vs).2)

/-- One step of the RLC loop: build both sides from the load resistance at
the given instant and solve the linear 2x2 system. -/
def step (Rl : ℚ → ℚ) (Vs tn : ℚ) (xv : ℚ × ℚ) : ℚ × ℚ :=
  solve2 (left_side (Rl tn)) (right_side_vector (Rl tn) Vs xv)

/-- State sequence of the RLC loop: x(0) = (0, 0) and each step applies
the trapezoidal solve with the resistance valid at t[n]. -/
def state (Rl : ℚ → ℚ) (Vs : ℚ) : ℕ → ℚ × ℚ
  | 0 => (0, 0)
  | n + 1 => step Rl Vs (t n) (state Rl Vs n)

/-- Stored inductor-current series i_L = first state component. -/
def i_L (Rl : ℚ → ℚ) (Vs : ℚ) (i : ℕ) : ℚ := (state Rl Vs i).1

/-- Stored capacitor-voltage series v_C = second state component. -/
def v_C (Rl : ℚ → ℚ) (Vs : ℚ) (i : ℕ) : ℚ := (state Rl Vs i).2

/-- Stored load-current series i_load: index 0 keeps its zero
initialization; index n+1 receives v_C[n+1] / load_resistance(t[n+1]). -/
def i_load (Rl : ℚ → ℚ) (Vs : ℚ) (i : ℕ) : ℚ :=
  if i = 0 then 0 else v_C Rl Vs i / Rl (t i)

/-- One RLC loop body with the Python failure sites made explicit: the
entry 1/C of A_load raises ZeroDivisionError when C = 0, the entry
-1/(R_load*C) when R_load*C = 0, and numpy.linalg.solve raises
LinAlgError when the left-hand operator is singular. -/
def step_exc (Cv dtv Vs tn : ℚ) (xv : ℚ × ℚ) : Except PyExc (ℚ × ℚ) :=
  if Cv = 0 then .error .zeroDivisionError
  else if load_resistance tn * Cv = 0 then .error .zeroDivisionError
  else
    let Av : Mat2 := ⟨0, -1 / L, 1 / Cv, -1 / (load_resistance tn * Cv)⟩
    let lhs : Mat2 := ⟨1 - (dtv / 2) * Av.a, -((dtv / 2) * Av.b),
                       -((dtv / 2) * Av.c), 1 - (dtv / 2) * Av.d⟩
    let rhs := ((mulVec ⟨1 + (dtv / 2) * Av.a, (dtv / 2) * Av.b,
                         (dtv / 2) * Av.c, 1 + (dtv / 2) * Av.d⟩ xv).1 + dtv * (u_vec Vs).1,
                (mulVec ⟨1 + (dtv / 2) * Av.a, (dtv / 2) * Av.b,
                         (dtv / 2) * Av.c, 1 + (dtv / 2) * Av.d⟩ xv).2 + dtv * (u_vec Vs).2)
    if det2 lhs = 0 then .error .linAlgError
    else .ok (solve2 lhs rhs)

/-- The RLC time loop with failure tracking. -/
def loop_exc (Cv dtv Vs : ℚ) (grid : ℕ → ℚ) : ℕ → ℕ → ℚ × ℚ → Except SimFailure (ℚ × ℚ)
  | _, 0, xv => .ok xv
  | n, rem + 1, xv =>
    match step_exc Cv dtv Vs (grid n) xv with
    | .error e => .error (.atStep n e)
    | .ok xv' => loop_exc Cv dtv Vs grid (n + 1) rem xv'

/-- The whole RLC script over configurable C and dt: n_steps = int(t_max/dt)
raises ZeroDivisionError when dt = 0; np.linspace raises ValueError when
n_steps is negative; then the loop runs n_steps - 1 iterations from the
zero initial state. -/
def run (Cv dtv : ℚ) : Except SimFailure (ℚ × ℚ) :=
  if dtv = 0 then .error (.beforeLoop .zeroDivisionError)
  else if pyint (t_max / dtv) < 0 then .error (.beforeLoop .valueError)
  else loop_exc Cv dtv V_source (linspace t_max (pyint (t_max / dtv)).toNat) 0
    ((pyint (t_max / dtv)).toNat - 1) (0, 0)

end RLC

/-! ### Helper lemmas -/

theorem rl_n_steps_eq : RL.n_steps = 10000 := by
  have h : RL.t_max / RL.dt = 10000 := by norm_num [RL.t_max, RL.dt]
  rw [RL.n_steps, h]
  simp [pyint]

theorem rlc_n_steps_eq : RLC.n_steps = 10000 := by
  have h : RLC.t_max / RLC.dt = 10000 := by norm_num [RLC.t_max, RLC.dt]
  rw [RLC.n_steps, h]
  simp [pyint]

theorem rl_t_eq (i : ℕ) : RL.t i = i / 99990 := by
  rw [RL.t, linspace, if_neg (by simp [rl_n_steps_eq]), rl_n_steps_eq, RL.t_max]
  push_cast
  ring

theorem rlc_t_eq (i : ℕ) : RLC.t i = i / 999900 := by
  rw [RLC.t, linspace, if_neg (by simp [rlc_n_steps_eq]), rlc_n_steps_eq, RLC.t_max]
  push_cast
  ring

theorem pegar_cases (s : ℚ) : RL.pegar_resistencia s = 10 ∨ RL.pegar_resistencia s = 1 := by
  rw [RL.pegar_resistencia]
  split <;> simp

theorem load_cases (s : ℚ) : RLC.load_resistance s = 50 ∨ RLC.load_resistance s = 25 := by
  rw [RLC.load_resistance, RLC.R_load_initial]
  split <;> norm_num

theorem solve2_spec (m : Mat2) (r : ℚ × ℚ) (h : det2 m ≠ 0) :
    m.a * (solve2 m r).1 + m.b * (solve2 m r).2 = r.1 ∧
    m.c * (solve2 m r).1 + m.d * (solve2 m r).2 = r.2 := by
  rw [det2] at h
  constructor <;>
    (rw [solve2, det2]; field_simp; ring)

theorem lado_esquerdo_pos (s : ℚ) :
    0 < RL.lado_esquerdo RL.dt RL.L (RL.pegar_resistencia s) := by
  rcases pegar_cases s with h | h <;> rw [RL.lado_esquerdo, h] <;>
    norm_num [RL.dt, RL.L]

theorem rl_x_nonneg : ∀ n, 0 ≤ RL.x RL.pegar_resistencia RL.V_fonte n := by
  intro n
  induction n with
  | zero => simp [RL.x]
  | succ k ih =>
    rw [RL.x]
    apply div_nonneg _ (lado_esquerdo_pos (RL.t k)).le
    simp only [RL.V_fonte] at ih ⊢
    rcases pegar_cases (RL.t k) with h | h <;> rw [RL.lado_direito, h] <;>
      norm_num [RL.dt, RL.L] <;> linarith

theorem rl_x_pos (n : ℕ) : 0 < RL.x RL.pegar_resistencia RL.V_fonte (n + 1) := by
  have ih := rl_x_nonneg n
  rw [RL.x]
  apply div_pos _ (lado_esquerdo_pos (RL.t n))
  simp only [RL.V_fonte] at ih ⊢
  rcases pegar_cases (RL.t n) with h | h <;> rw [RL.lado_direito, h] <;>
    norm_num [RL.dt, RL.L] <;> linarith

theorem rl_step_identity (Rs : ℚ → ℚ) (u : ℚ) (n : ℕ)
    (h : RL.lado_esquerdo RL.dt RL.L (Rs (RL.t n)) ≠ 0) :
    RL.lado_esquerdo RL.dt RL.L (Rs (RL.t n)) * RL.x Rs u (n + 1) =
    RL.lado_direito RL.dt RL.L (Rs (RL.t n)) u (RL.x Rs u n) := by
  rw [RL.x, mul_comm, div_mul_cancel₀ _ h]

theorem pegar_at_4999 : RL.pegar_resistencia (RL.t 4999) = 10 := by
  rw [rl_t_eq, RL.pegar_resistencia, if_pos (by norm_num)]

theorem pegar_at_5000 : RL.pegar_resistencia (RL.t 5000) = 1 := by
  rw [rl_t_eq, RL.pegar_resistencia, if_neg (by norm_num)]

theorem rlc_det_pos (s : ℚ) : 0 < det2 (RLC.left_side (RLC.load_resistance s)) := by
  rcases load_cases s with h | h <;>
    rw [det2, RLC.left_side, h] <;>
    norm_num [RLC.A_load, RLC.L, RLC.C, RLC.dt]

theorem rlc_step_identity (Rl : ℚ → ℚ) (Vs : ℚ) (n : ℕ)
    (h : det2 (RLC.left_side (Rl (RLC.t n))) ≠ 0) :
    mulVec (RLC.left_side (Rl (RLC.t n))) (RLC.state Rl Vs (n + 1)) =
      RLC.right_side_vector (Rl (RLC.t n)) Vs (RLC.state Rl Vs n) := by
  have hs := solve2_spec (RLC.left_side (Rl (RLC.t n)))
    (RLC.right_side_vector (Rl (RLC.t n)) Vs (RLC.state Rl Vs n)) h
  rw [RLC.state, RLC.step, mulVec]
  exact Prod.ext hs.1 hs.2

/-! ### Claim theorems -/

/-- Counterexample to claim C1: at the step from index 4999 to 5000 of
the RL run, which straddles the event threshold t = 0.05, the solved
state does not satisfy the claimed equation whose left-hand operator is
built from the parameter set at t[n+1]: the code builds both sides from
the parameter set at t[n], and the two resistances (10 before and 1
after the event) give different left-hand coefficients while the current
at index 5000 is strictly positive. -/
theorem C1_counterexample :
    RL.lado_esquerdo RL.dt RL.L (RL.pegar_resistencia (RL.t 5000)) *
        RL.x RL.pegar_resistencia RL.V_fonte 5000 ≠
      RL.lado_direito RL.dt RL.L (RL.pegar_resistencia (RL.t 4999)) RL.V_fonte
        (RL.x RL.pegar_resistencia RL.V_fonte 4999) := by
  have hcode := rl_step_identity RL.pegar_resistencia RL.V_fonte 4999
    (lado_esquerdo_pos (RL.t 4999)).ne'
  have h5000 : (4999 : ℕ) + 1 = 5000 := rfl
  rw [h5000] at hcode
  rw [← hcode, pegar_at_5000, pegar_at_4999]
  have hx : 0 < RL.x RL.pegar_resistencia RL.V_fonte 5000 := by
    have := rl_x_pos 4999
    rwa [h5000] at this
  simp only [RL.lado_esquerdo]
  intro heq
  norm_num [RL.dt, RL.L] at heq
  linarith

/-- Claim C1 as amended: in every trapezoidal step of both scripts the
left-hand operator and the right-hand side are BOTH built from the
parameter set valid at the start of the step (time t[n]); the stepper
solves (I - (dt/2) A(params(t[n]))) x[n+1] =
(I + (dt/2) A(params(t[n]))) x[n] + dt B u. -/
theorem C1_amended_both_sides_at_t_n :
    (∀ n, n + 1 < RL.n_steps →
      RL.lado_esquerdo RL.dt RL.L (RL.pegar_resistencia (RL.t n)) *
          RL.x RL.pegar_resistencia RL.V_fonte (n + 1) =
        RL.lado_direito RL.dt RL.L (RL.pegar_resistencia (RL.t n)) RL.V_fonte
          (RL.x RL.pegar_resistencia RL.V_fonte n)) ∧
    (∀ n, n + 1 < RLC.n_steps →
      mulVec (RLC.left_side (RLC.load_resistance (RLC.t n)))
          (RLC.state RLC.load_resistance RLC.V_source (n + 1)) =
        RLC.right_side_vector (RLC.load_resistance (RLC.t n)) RLC.V_source
          (RLC.state RLC.load_resistance RLC.V_source n)) :=
  ⟨fun n _ => rl_step_identity RL.pegar_resistencia RL.V_fonte n
      (lado_esquerdo_pos (RL.t n)).ne',
   fun n _ => rlc_step_identity RLC.load_resistance RLC.V_source n
      (rlc_det_pos (RLC.t n)).ne'⟩

/-- Witness for C1 as amended, at the first step of both scripts. -/
theorem C1_witness :
    (0 + 1 < RL.n_steps ∧ 0 + 1 < RLC.n_steps) ∧
    (RL.lado_esquerdo RL.dt RL.L (RL.pegar_resistencia (RL.t 0)) *
        RL.x RL.pegar_resistencia RL.V_fonte (0 + 1) =
      RL.lado_direito RL.dt RL.L (RL.pegar_resistencia (RL.t 0)) RL.V_fonte
        (RL.x RL.pegar_resistencia RL.V_fonte 0)) ∧
    (mulVec (RLC.left_side (RLC.load_resistance (RLC.t 0)))
        (RLC.state RLC.load_resistance RLC.V_source (0 + 1)) =
      RLC.right_side_vector (RLC.load_resistance (RLC.t 0)) RLC.V_source
        (RLC.state RLC.load_resistance RLC.V_source 0)) :=
  ⟨⟨by rw [rl_n_steps_eq]; norm_num, by rw [rlc_n_steps_eq]; norm_num⟩,
   C1_amended_both_sides_at_t_n.1 0 (by rw [rl_n_steps_eq]; norm_num),
   C1_amended_both_sides_at_t_n.2 0 (by rw [rlc_n_steps_eq]; norm_num)⟩

/-- Claim C2: for every non-negative time the schedules are piecewise
constant with the breakpoint on the post-event side: the RL schedule
returns the pre-event value 10 exactly when t < 0.05 and the post-event
value 1 from the threshold on; the RLC load schedule likewise returns 50
exactly when t < 0.005 and 25 from the threshold on. -/
theorem C2_schedule_boundary (q : ℚ) (hq : 0 ≤ q) :
    ((q < 1 / 20 ↔ RL.pegar_resistencia q = 10) ∧
      (1 / 20 ≤ q ↔ RL.pegar_resistencia q = 1)) ∧
    ((q < 1 / 200 ↔ RLC.load_resistance q = 50) ∧
      (1 / 200 ≤ q ↔ RLC.load_resistance q = 25)) := by
  refine ⟨⟨⟨fun h => ?_, fun h => ?_⟩, ⟨fun h => ?_, fun h => ?_⟩⟩,
          ⟨⟨fun h => ?_, fun h => ?_⟩, ⟨fun h => ?_, fun h => ?_⟩⟩⟩
  · rw [RL.pegar_resistencia, if_pos h]
  · by_contra hn
    push_neg at hn
    rw [RL.pegar_resistencia, if_neg (not_lt.mpr hn)] at h
    norm_num at h
  · rw [RL.pegar_resistencia, if_neg (not_lt.mpr h)]
  · by_contra hn
    push_neg at hn
    rw [RL.pegar_resistencia, if_pos hn] at h
    norm_num at h
  · rw [RLC.load_resistance, if_pos h, RLC.R_load_initial]
  · by_contra hn
    push_neg at hn
    rw [RLC.load_resistance, if_neg (not_lt.mpr hn), RLC.R_load_initial] at h
    norm_num at h
  · rw [RLC.load_resistance, if_neg (not_lt.mpr h), RLC.R_load_initial]
    norm_num
  · by_contra hn
    push_neg at hn
    rw [RLC.load_resistance, if_pos hn, RLC.R_load_initial] at h
    norm_num at h

/-- Witness for C2 at the boundary instant t = 0.05 of the RL schedule
and t = 0.005 of the RLC schedule (both give the post-event value). -/
theorem C2_witness :
    (0 ≤ (1 / 20 : ℚ) ∧ 0 ≤ (1 / 200 : ℚ)) ∧
    RL.pegar_resistencia (1 / 20) = 1 ∧ RLC.load_resistance (1 / 200) = 25 :=
  ⟨⟨by norm_num, by norm_num⟩,
   ((C2_schedule_boundary (1 / 20) (by norm_num)).1.2).mp (by norm_num),
   ((C2_schedule_boundary (1 / 200) (by norm_num)).2.2).mp (by norm_num)⟩

/-- Claim C3: derived outputs are stored at index n+1 from the newly
solved state and the parameter set valid at t[n+1]: in the RLC script
i_load[i] = v_C[i] / R_load(t[i]) holds exactly for every stored index i,
and in the RL script v_R[i] = R(t[i]) * i_L[i] for every stored index
i at least 1. -/
theorem C3_outputs_post_step :
    (∀ i, i < RLC.n_steps →
      RLC.i_load RLC.load_resistance RLC.V_source i =
        RLC.v_C RLC.load_resistance RLC.V_source i / RLC.load_resistance (RLC.t i)) ∧
    (∀ i, 1 ≤ i → i < RL.n_steps →
      RL.v_R RL.pegar_resistencia RL.V_fonte i =
        RL.pegar_resistencia (RL.t i) * RL.i_L RL.pegar_resistencia RL.V_fonte i) := by
  constructor
  · intro i _
    rw [RLC.i_load]
    split_ifs with h
    · subst h
      simp [RLC.v_C, RLC.state]
    · rfl
  · intro i h1 _
    rw [RL.v_R, if_neg (by omega), RL.i_L]

/-- Witness for C3 at stored index 1 of both scripts. -/
theorem C3_witness :
    (1 < RLC.n_steps ∧ 1 ≤ 1 ∧ 1 < RL.n_steps) ∧
    RLC.i_load RLC.load_resistance RLC.V_source 1 =
      RLC.v_C RLC.load_resistance RLC.V_source 1 / RLC.load_resistance (RLC.t 1) ∧
    RL.v_R RL.pegar_resistencia RL.V_fonte 1 =
      RL.pegar_resistencia (RL.t 1) * RL.i_L RL.pegar_resistencia RL.V_fonte 1 :=
  ⟨⟨by rw [rlc_n_steps_eq]; norm_num, le_refl 1, by rw [rl_n_steps_eq]; norm_num⟩,
   C3_outputs_post_step.1 1 (by rw [rlc_n_steps_eq]; norm_num),
   C3_outputs_post_step.2 1 (le_refl 1) (by rw [rl_n_steps_eq]; norm_num)⟩

/-- Counterexample to claim C4: the consecutive grid spacing is not the
configured time step dt in either script; it is t_max/(n_steps - 1),
which differs from dt because n_steps = int(t_max/dt) points span the
closed interval [0, t_max]. -/
theorem C4_counterexample :
    RL.t 1 - RL.t 0 ≠ RL.dt ∧ RLC.t 1 - RLC.t 0 ≠ RLC.dt := by
  rw [rl_t_eq 1, rl_t_eq 0, rlc_t_eq 1, rlc_t_eq 0]
  norm_num [RL.dt, RLC.dt]

/-- Claim C4 as amended: each time grid starts at 0, ends at t_max, is
strictly increasing with uniform spacing, N = horizon/dt exactly, but the
spacing equals t_max/(N - 1) = dt * N/(N - 1) rather than dt. -/
theorem C4_amended_grid :
    (RL.t 0 = 0 ∧ (RL.n_steps : ℚ) = RL.t_max / RL.dt ∧ RL.t (RL.n_steps - 1) = RL.t_max ∧
      ∀ i, i + 1 < RL.n_steps →
        RL.t i < RL.t (i + 1) ∧
        RL.t (i + 1) - RL.t i = RL.t_max / ((RL.n_steps : ℚ) - 1)) ∧
    (RLC.t 0 = 0 ∧ (RLC.n_steps : ℚ) = RLC.t_max / RLC.dt ∧ RLC.t (RLC.n_steps - 1) = RLC.t_max ∧
      ∀ i, i + 1 < RLC.n_steps →
        RLC.t i < RLC.t (i + 1) ∧
        RLC.t (i + 1) - RLC.t i = RLC.t_max / ((RLC.n_steps : ℚ) - 1)) := by
  refine ⟨⟨?_, ?_, ?_, fun i _ => ⟨?_, ?_⟩⟩, ⟨?_, ?_, ?_, fun i _ => ⟨?_, ?_⟩⟩⟩
  · rw [rl_t_eq]
    norm_num
  · rw [rl_n_steps_eq]
    norm_num [RL.t_max, RL.dt]
  · rw [rl_n_steps_eq, rl_t_eq, RL.t_max]
    norm_num
  · rw [rl_t_eq i, rl_t_eq (i + 1)]
    push_cast
    linarith
  · rw [rl_t_eq i, rl_t_eq (i + 1), rl_n_steps_eq, RL.t_max]
    push_cast
    ring
  · rw [rlc_t_eq]
    norm_num
  · rw [rlc_n_steps_eq]
    norm_num [RLC.t_max, RLC.dt]
  · rw [rlc_n_steps_eq, rlc_t_eq, RLC.t_max]
    norm_num
  · rw [rlc_t_eq i, rlc_t_eq (i + 1)]
    push_cast
    linarith
  · rw [rlc_t_eq i, rlc_t_eq (i + 1), rlc_n_steps_eq, RLC.t_max]
    push_cast
    ring

/-- Witness for C4 as amended, at the first grid interval of each script. -/
theorem C4_witness :
    (0 + 1 < RL.n_steps ∧ 0 + 1 < RLC.n_steps) ∧
    (RL.t 0 < RL.t (0 + 1) ∧ RL.t (0 + 1) - RL.t 0 = RL.t_max / ((RL.n_steps : ℚ) - 1)) ∧
    (RLC.t 0 < RLC.t (0 + 1) ∧ RLC.t (0 + 1) - RLC.t 0 = RLC.t_max / ((RLC.n_steps : ℚ) - 1)) :=
  ⟨⟨by rw [rl_n_steps_eq]; norm_num, by rw [rlc_n_steps_eq]; norm_num⟩,
   C4_amended_grid.1.2.2.2 0 (by rw [rl_n_steps_eq]; norm_num),
   C4_amended_grid.2.2.2.2 0 (by rw [rlc_n_steps_eq]; norm_num)⟩

/-- Counterexample to claim C5: in the RL script the inductor-voltage
entry at index 0 keeps its zero initialization and is never recomputed,
so v_L[0] = 0 rather than V_fonte = 220. -/
theorem C5_counterexample :
    RL.v_L RL.pegar_resistencia RL.V_fonte 0 ≠ RL.V_fonte := by
  rw [RL.v_L]
  norm_num [RL.V_fonte]

/-- Claim C5 as amended: each run starts from state[0] equal to the
declared zero initial condition, and every output entry at index 0 keeps
its zero initialization (the output equation is not applied at index 0),
so in the RL script v_R[0] = 0 and also v_L[0] = 0, not V_fonte. -/
theorem C5_amended_initialization :
    RL.x RL.pegar_resistencia RL.V_fonte 0 = 0 ∧
    RL.i_L RL.pegar_resistencia RL.V_fonte 0 = 0 ∧
    RL.v_R RL.pegar_resistencia RL.V_fonte 0 = 0 ∧
    RL.v_L RL.pegar_resistencia RL.V_fonte 0 = 0 ∧
    RLC.state RLC.load_resistance RLC.V_source 0 = (0, 0) ∧
    RLC.i_load RLC.load_resistance RLC.V_source 0 = 0 :=
  ⟨rfl, rfl, rfl, rfl, rfl, rfl⟩

/-- Claim C7: with the source voltage set to zero and the zero initial
state, every state entry (i_L, v_C) and every derived output entry
(v_R, v_L, i_load) is exactly zero at every index, for every positive
resistance schedule of either script. -/
theorem C7_zero_input_stays_zero (Rs Rl : ℚ → ℚ)
    (hRs : ∀ s, 0 < Rs s) (hRl : ∀ s, 0 < Rl s) (n : ℕ) :
    RL.i_L Rs 0 n = 0 ∧ RL.v_R Rs 0 n = 0 ∧ RL.v_L Rs 0 n = 0 ∧
    RLC.i_L Rl 0 n = 0 ∧ RLC.v_C Rl 0 n = 0 ∧ RLC.i_load Rl 0 n = 0 := by
  have hx : ∀ m, RL.x Rs 0 m = 0 := by
    intro m
    induction m with
    | zero => rfl
    | succ k ih =>
      rw [RL.x, ih, RL.lado_direito]
      simp
  have hst : ∀ m, RLC.state Rl 0 m = (0, 0) := by
    intro m
    induction m with
    | zero => rfl
    | succ k ih =>
      rw [RLC.state, RLC.step, ih, RLC.right_side_vector, RLC.u_vec, mulVec,
        RLC.right_side_matrix]
      simp [solve2]
  refine ⟨hx n, ?_, ?_, ?_, ?_, ?_⟩
  · rw [RL.v_R]
    split_ifs with h
    · rfl
    · rw [hx n, mul_zero]
  · rw [RL.v_L]
    split_ifs with h
    · rfl
    · rw [RL.v_R, if_neg h, hx n, mul_zero]
      ring
  · rw [RLC.i_L, hst n]
  · rw [RLC.v_C, hst n]
  · rw [RLC.i_load]
    split_ifs with h
    · rfl
    · rw [RLC.v_C, hst n]
      simp

/-- Witness for C7 with the concrete schedules of the two scripts at
index 3. -/
theorem C7_witness :
    ((∀ s, 0 < RL.pegar_resistencia s) ∧ (∀ s, 0 < RLC.load_resistance s)) ∧
    RL.i_L RL.pegar_resistencia 0 3 = 0 ∧ RL.v_R RL.pegar_resistencia 0 3 = 0 ∧
    RL.v_L RL.pegar_resistencia 0 3 = 0 ∧ RLC.i_L RLC.load_resistance 0 3 = 0 ∧
    RLC.v_C RLC.load_resistance 0 3 = 0 ∧ RLC.i_load RLC.load_resistance 0 3 = 0 :=
  ⟨⟨fun s => by rcases pegar_cases s with h | h <;> rw [h] <;> norm_num,
    fun s => by rcases load_cases s with h | h <;> rw [h] <;> norm_num⟩,
   C7_zero_input_stays_zero RL.pegar_resistencia RLC.load_resistance
     (fun s => by rcases pegar_cases s with h | h <;> rw [h] <;> norm_num)
     (fun s => by rcases load_cases s with h | h <;> rw [h] <;> norm_num) 3⟩

/-- Counterexample to claim C6: supplying L = 0 to the RL script does
not raise a DomainError before any integration step; the grid is built,
the loop starts, and a ZeroDivisionError surfaces inside the loop at
step index 0, at the division A = -R/L.  No eager validation exists. -/
theorem C6_counterexample :
    RL.run 0 RL.dt = Except.error (SimFailure.atStep 0 PyExc.zeroDivisionError) ∧
    RL.run 0 RL.dt ≠ Except.error (SimFailure.beforeLoop PyExc.zeroDivisionError) ∧
    RL.run 0 RL.dt ≠ Except.error (SimFailure.beforeLoop PyExc.valueError) ∧
    RL.run 0 RL.dt ≠ Except.error (SimFailure.beforeLoop PyExc.linAlgError) := by
  have hp : pyint (RL.t_max / RL.dt) = 10000 := by
    rw [show RL.t_max / RL.dt = 10000 by norm_num [RL.t_max, RL.dt]]
    simp [pyint]
  have hrun : RL.run 0 RL.dt = Except.error (SimFailure.atStep 0 PyExc.zeroDivisionError) := by
    rw [RL.run, if_neg (by norm_num [RL.dt]), hp, if_neg (by norm_num),
      show ((10000 : ℤ).toNat - 1) = 9998 + 1 from rfl, RL.loop_exc,
      RL.step_exc, if_pos rfl]
  exact ⟨hrun, by rw [hrun]; simp, by rw [hrun]; simp, by rw [hrun]; simp⟩

/-- Claim C6 as amended: neither script validates its inputs and neither
defines a DomainError or ConfigurationError.  In the RL script, L = 0
causes a ZeroDivisionError inside the loop at step index 0, not before
the loop; dt = 0 causes a ZeroDivisionError before the loop while
computing the number of steps; a negative dt makes the computed number
of steps negative, so building the grid fails with a ValueError before
the loop.  The RLC script behaves the same way with C = 0 and with
dt = 0. -/
theorem C6_amended_no_validation :
    RL.run 0 RL.dt = Except.error (SimFailure.atStep 0 PyExc.zeroDivisionError) ∧
    RL.run RL.L 0 = Except.error (SimFailure.beforeLoop PyExc.zeroDivisionError) ∧
    RL.run RL.L (-RL.dt) = Except.error (SimFailure.beforeLoop PyExc.valueError) ∧
    RLC.run 0 RLC.dt = Except.error (SimFailure.atStep 0 PyExc.zeroDivisionError) ∧
    RLC.run RLC.C 0 = Except.error (SimFailure.beforeLoop PyExc.zeroDivisionError) := by
  refine ⟨?_, ?_, ?_, ?_, ?_⟩
  · have hp : pyint (RL.t_max / RL.dt) = 10000 := by
      rw [show RL.t_max / RL.dt = 10000 by norm_num [RL.t_max, RL.dt]]
      simp [pyint]
    rw [RL.run, if_neg (by norm_num [RL.dt]), hp, if_neg (by norm_num),
      show ((10000 : ℤ).toNat - 1) = 9998 + 1 from rfl, RL.loop_exc,
      RL.step_exc, if_pos rfl]
  · rw [RL.run, if_pos rfl]
  · have hp : pyint (RL.t_max / -RL.dt) = -10000 := by
      rw [show RL.t_max / -RL.dt = -10000 by norm_num [RL.t_max, RL.dt]]
      simp [pyint]
    rw [RL.run, if_neg (by norm_num [RL.dt]), hp, if_pos (by norm_num)]
  · have hp : pyint (RLC.t_max / RLC.dt) = 10000 := by
      rw [show RLC.t_max / RLC.dt = 10000 by norm_num [RLC.t_max, RLC.dt]]
      simp [pyint]
    rw [RLC.run, if_neg (by norm_num [RLC.dt]), hp, if_neg (by norm_num),
      show ((10000 : ℤ).toNat - 1) = 9998 + 1 from rfl, RLC.loop_exc,
      RLC.step_exc, if_pos rfl]
  · rw [RLC.run, if_pos rfl]

/-- Claim C8: the scalar left-hand trapezoidal coefficient
1 - (dt/2)(-R/L) is non-zero for every dt > 0, L > 0, R at least 0, so
the division solving for the next state never divides by zero. -/
theorem C8_scalar_pivot_nonzero (dtv Lv Rv : ℚ)
    (hdt : 0 < dtv) (hL : 0 < Lv) (hR : 0 ≤ Rv) :
    RL.lado_esquerdo dtv Lv Rv ≠ 0 := by
  have e : RL.lado_esquerdo dtv Lv Rv = 1 + dtv * Rv / (2 * Lv) := by
    rw [RL.lado_esquerdo]
    field_simp
  have hpos : 0 < 1 + dtv * Rv / (2 * Lv) := by positivity
  rw [e]
  exact ne_of_gt hpos

/-- Witness for C8 at the RL script parameters dt = 1e-5, L = 0.1,
R = 10. -/
theorem C8_witness :
    (0 < RL.dt ∧ 0 < RL.L ∧ (0 : ℚ) ≤ 10) ∧ RL.lado_esquerdo RL.dt RL.L 10 ≠ 0 :=
  ⟨⟨by norm_num [RL.dt], by norm_num [RL.L], by norm_num⟩,
   C8_scalar_pivot_nonzero RL.dt RL.L 10 (by norm_num [RL.dt]) (by norm_num [RL.L]) (by norm_num)⟩

/-- Claim C9: for the RL loop run with the constant schedule R = 10, the
script inductance L = 0.1, source V_fonte = 220 and zero initial
current, the current series is monotonically non-decreasing toward the
steady state V/R = 22, never exceeds 22, and the final sample (index
n_steps - 1) is within 0.01 of 22 * (1 - exp(-t_max * R / L)). -/
theorem C9_rl_energization :
    (∀ n, RL.i_L (fun _ => 10) RL.V_fonte n ≤ RL.i_L (fun _ => 10) RL.V_fonte (n + 1)) ∧
    (∀ n, RL.i_L (fun _ => 10) RL.V_fonte n ≤ 22) ∧
    |((RL.i_L (fun _ => 10) RL.V_fonte (RL.n_steps - 1) : ℚ) : ℝ) -
        22 * (1 - Real.exp (-((RL.t_max * 10 / RL.L : ℚ) : ℝ)))| < 1 / 100 := by
  have closed : ∀ n, RL.x (fun _ => 10) RL.V_fonte n = 22 * (1 - (1999 / 2001 : ℚ) ^ n) := by
    intro n
    induction n with
    | zero => simp [RL.x]
    | succ k ih =>
      rw [RL.x, ih, RL.lado_direito, RL.lado_esquerdo, RL.dt, RL.L, RL.V_fonte, pow_succ]
      ring
  have hq0 : (0 : ℚ) ≤ 1999 / 2001 := by norm_num
  refine ⟨fun n => ?_, fun n => ?_, ?_⟩
  · rw [RL.i_L, RL.i_L, closed, closed, pow_succ]
    have hm : (1999 / 2001 : ℚ) ^ n * (1999 / 2001) ≤ (1999 / 2001 : ℚ) ^ n :=
      mul_le_of_le_one_right (pow_nonneg hq0 n) (by norm_num)
    linarith
  · rw [RL.i_L, closed]
    have := pow_nonneg hq0 n
    linarith
  · rw [RL.i_L, rl_n_steps_eq, show (10000 - 1 : ℕ) = 9999 from rfl, closed]
    rw [show ((RL.t_max * 10 / RL.L : ℚ) : ℝ) = 10 by norm_num [RL.t_max, RL.L]]
    push_cast
    have hnat : 2200 * 1999 ^ 9999 < 2001 ^ 9999 := by norm_num
    have ha : ((1999 : ℝ) / 2001) ^ 9999 < 1 / 2200 := by
      rw [div_pow, div_lt_div_iff (by positivity) (by norm_num)]
      calc (1999 : ℝ) ^ 9999 * 2200 = ((2200 * 1999 ^ 9999 : ℕ) : ℝ) := by push_cast; ring
        _ < ((2001 ^ 9999 : ℕ) : ℝ) := by exact_mod_cast hnat
        _ = 1 * (2001 : ℝ) ^ 9999 := by push_cast; ring
    have ha0 : (0 : ℝ) ≤ ((1999 : ℝ) / 2001) ^ 9999 := by positivity
    have he : (2200 : ℝ) < Real.exp 10 := by
      have h27 : (2.7 : ℝ) ≤ Real.exp 1 :=
        le_trans (by norm_num) Real.exp_one_gt_d9.le
      have h1 : (2.7 : ℝ) ^ (10 : ℕ) ≤ Real.exp 1 ^ (10 : ℕ) :=
        pow_le_pow_left (by norm_num) h27 10
      have h2 : Real.exp 10 = Real.exp 1 ^ (10 : ℕ) := by
        rw [← Real.exp_nat_mul]
        norm_num
      rw [h2]
      calc (2200 : ℝ) < 2.7 ^ (10 : ℕ) := by norm_num
        _ ≤ _ := h1
    have hb : Real.exp (-10) < 1 / 2200 := by
      rw [Real.exp_neg, show (1 : ℝ) / 2200 = (2200 : ℝ)⁻¹ by norm_num]
      exact inv_lt_inv_of_lt (by norm_num) he
    have hb0 : 0 < Real.exp (-10) := Real.exp_pos _
    rw [abs_lt]
    constructor <;> linarith

/-- Claim C10: in the RL script the stored outputs satisfy
v_R[n] + v_L[n] = V_fonte exactly for every computed index n between 1
and N-1, while at index 0 both outputs keep their zero initialization,
so the sum at index 0 is 0 rather than V_fonte. -/
theorem C10_kvl_by_construction :
    (∀ n, 1 ≤ n → n ≤ RL.n_steps - 1 →
      RL.v_R RL.pegar_resistencia RL.V_fonte n + RL.v_L RL.pegar_resistencia RL.V_fonte n
        = RL.V_fonte) ∧
    RL.v_R RL.pegar_resistencia RL.V_fonte 0 = 0 ∧
    RL.v_L RL.pegar_resistencia RL.V_fonte 0 = 0 := by
  refine ⟨fun n h1 h2 => ?_, rfl, rfl⟩
  rw [RL.v_L, if_neg (by omega)]
  ring

/-- Witness for C10 at stored index 1. -/
theorem C10_witness :
    (1 ≤ 1 ∧ 1 ≤ RL.n_steps - 1) ∧
    RL.v_R RL.pegar_resistencia RL.V_fonte 1 + RL.v_L RL.pegar_resistencia RL.V_fonte 1
      = RL.V_fonte :=
  ⟨⟨le_refl 1, by rw [rl_n_steps_eq]; norm_num⟩,
   C10_kvl_by_construction.1 1 (le_refl 1) (by rw [rl_n_steps_eq]; norm_num)⟩

end TransientSim
